import Mathlib

/-!
Verification of the OpenDSU anchoring client (`src/anchoring/index.js`) and the
dossier builder routing decision (`src/dt/DossierBuilder.js`) against their
natural-language specification.

The JavaScript code is shallowly embedded: promise settlement outcomes become an
explicit `Settled` type, `Promise.allSettled` (which reports outcomes in the order
of its input array) becomes a list of outcomes aligned with the endpoint list, and
external collaborators (BDNS service locator, HTTP `fetch`/`doPut`, `keyssi.parse`,
process configuration) become fields of an environment record.  The observable
behaviour of one call — which network requests were issued and which callback
invocation (if any) finally happened — is the value of the embedded function.
-/

/-- Outcome of one settled promise, as reported by `Promise.allSettled`:
`fulfilled` with a value or `rejected` with a reason. -/
inductive Settled (α ε : Type) where
  | fulfilled (value : α)
  | rejected (reason : ε)
deriving DecidableEq

/-- Embeds `responses.find((r) => r.status === 'fulfilled')` followed by `.value`:
the value of the first fulfilled settlement in list order (which, for
`Promise.allSettled`, is the input/endpoint-list order, not arrival order). -/
def findFirstFulfilled {α ε : Type} : List (Settled α ε) → Option α
  | [] => none
  | .fulfilled v :: _ => some v
  | .rejected _ :: rest => findFirstFulfilled rest

/-- Embeds `responses.find((r) => r.status === 'rejected')` followed by `.reason`. -/
def findFirstRejected {α ε : Type} : List (Settled α ε) → Option ε
  | [] => none
  | .rejected r :: _ => some r
  | .fulfilled _ :: rest => findFirstRejected rest

/-- The two addresses a keySSI exposes to the anchoring protocol, plus its full
serialized identifier (`getDLDomain()`, `getAnchorId()`, `getIdentifier()`). -/
structure KeySSI where
  dlDomain : String
  anchorId : String
  identifier : String
deriving DecidableEq

/-- Modelled from the spec: `constants.DOMAINS.VAULT`, the designated fast-path
domain (the `moduleConstants` file is outside the reviewed sources; the spec's
test harness uses the domain name `vault`). -/
def DOMAINS_VAULT : String := "vault"

/-- A fulfilled read response object; `json` is the settlement of its
`response.value.json()` promise: a JSON array of serialized keySSI strings on
success, or a decode-failure reason. -/
structure ReadResponse where
  json : Settled (List String) String
deriving DecidableEq

/-- The first argument the read callback can be invoked with. -/
inductive ReadErr where
  | locator (e : String)
  | noService
  | raceTypeError
deriving DecidableEq

/-- The JavaScript value passed as the read callback's error argument. -/
def ReadErr.message : ReadErr → String
  | .locator e => e
  | .noService => "No anchoring service provided"
  | .raceTypeError => "TypeError: Cannot read properties of undefined (reading 'value')"

/-- Environment of one `versions` call: process configuration, the BDNS service
locator's answer for the keySSI's domain, the settlement of `fetch(url)` per URL,
its arrival (settlement) time, and the external `keyssi.parse`. -/
structure ReadEnv where
  cacheVaultType : Option String
  getAnchoringServices : Except String (List String)
  fetch : String → Settled ReadResponse String
  arrival : String → Nat
  parse : String → Except String KeySSI

/-- URL of the read request issued for one anchoring service endpoint. -/
def readUrl (service : String) (k : KeySSI) : String :=
  service ++ "/anchor/versions/" ++ k.anchorId

/-- Embeds `hlStrings.map(hlString => keyssi.parse(hlString))`: JavaScript `map`
applies the function left to right and the first thrown parse error aborts it. -/
def mapKeySSIParse (parse : String → Except String KeySSI) :
    List String → Except String (List KeySSI)
  | [] => .ok []
  | s :: rest =>
    match parse s with
    | .error e => .error e
    | .ok k =>
      match mapKeySSIParse parse rest with
      | .error e => .error e
      | .ok ks => .ok (k :: ks)

instance exceptDecEq {ε α : Type} [DecidableEq ε] [DecidableEq α] : DecidableEq (Except ε α)
  | .error a, .error b =>
    if h : a = b then .isTrue (by rw [h]) else .isFalse (by simp [h])
  | .error _, .ok _ => .isFalse (by simp)
  | .ok _, .error _ => .isFalse (by simp)
  | .ok a, .ok b =>
    if h : a = b then .isTrue (by rw [h]) else .isFalse (by simp [h])

/-- Observable outcome of one `versions` call: either the call was delegated to
the local cache bypass (`cachedAnchoring.versions(anchorId, callback)`), or it ran
the network path, issuing `requests` and finishing with `callbackResult`
(`none` when the callback is never invoked, `some (.error e)` for `callback(e)`,
`some (.ok chain)` for `callback(null, chain)`). -/
inductive VersionsResult where
  | cacheBypass (anchorId : String)
  | network (requests : List String) (callbackResult : Option (Except ReadErr (List KeySSI)))
deriving DecidableEq

/-- Shallow embedding of `versions` from `src/anchoring/index.js`.

Faithfulness notes, branch by branch:
* the vault bypass check is `dlDomain === constants.DOMAINS.VAULT &&
  typeof config.get(constants.CACHE.VAULT_TYPE) !== "undefined"`;
* a BDNS error or an empty service list invokes the callback immediately;
* `Promise.allSettled(queries)` yields settlements in the order of `queries`,
  i.e. the endpoint-list order; `responses.find(fulfilled)` picks the first in
  that order;
* when no response fulfilled, `response` is `undefined` and `response.value`
  throws a TypeError inside the `.then` handler, which the trailing
  `.catch((err) => callback(err))` converts into `callback(err)`;
* the inner `response.value.json().then(...)` promise is not returned from the
  outer handler, so a JSON decode rejection, or a `keyssi.parse` throw inside the
  inner handler, is an unhandled rejection: the callback is never invoked. -/
def versions (env : ReadEnv) (keySSI : KeySSI) : VersionsResult :=
  if keySSI.dlDomain == DOMAINS_VAULT && env.cacheVaultType.isSome then
    .cacheBypass keySSI.anchorId
  else
    match env.getAnchoringServices with
    | .error e => .network [] (some (.error (.locator e)))
    | .ok services =>
      if services.isEmpty then
        .network [] (some (.error .noService))
      else
        let urls := services.map (fun s => readUrl s keySSI)
        let responses := urls.map env.fetch
        match findFirstFulfilled responses with
        | none => .network urls (some (.error .raceTypeError))
        | some resp =>
          match resp.json with
          | .rejected _ => .network urls none
          | .fulfilled hlStrings =>
            match mapKeySSIParse env.parse hlStrings with
            | .error _ => .network urls none
            | .ok hashLinks => .network urls (some (.ok hashLinks))

/-- The error object the `doPut` HTTP helper passes to its callback: an optional
HTTP status code and an optional (possibly empty) JavaScript error message. -/
structure PutErr where
  statusCode : Option Nat
  message : Option String
deriving DecidableEq

/-- The rejection reason object built by `addVersion` for one failed `doPut`. -/
structure WriteRejection where
  statusCode : Option Nat
  message : String
deriving DecidableEq

/-- The distinguished conflict message built for HTTP status 428. -/
def conflictMessage : String := "Unable to add alias: versions out of sync"

/-- Embeds the JavaScript expression `s || fallback` for a string `s` that may be
`undefined`: both `undefined` and the empty string are falsy. -/
def jsStringOrElse (s : Option String) (fallback : String) : String :=
  match s with
  | none => fallback
  | some m => if m = "" then fallback else m

/-- Embeds the rejection built in `addVersion`'s `doPut` callback:
`{ statusCode: err.statusCode, message: err.statusCode === 428 ?
'Unable to add alias: versions out of sync' : err.message || 'Error' }`. -/
def wrapRejection (err : PutErr) : WriteRejection :=
  { statusCode := err.statusCode,
    message := if err.statusCode == some 428 then conflictMessage
               else jsStringOrElse err.message "Error" }

/-- The write payload object built once per `addVersion` call:
`{ hash: { last, new }, zkpValue, digitalProof }`. -/
structure AnchorBody where
  hashLast : Option String
  hashNew : String
  zkpValue : Option String
  digitalProof : Option String
deriving DecidableEq

/-- JSON rendering of a string-or-null field. -/
def jsonStringOrNull (s : Option String) : String :=
  match s with
  | none => "null"
  | some v => "\"" ++ v ++ "\""

/-- Embeds `JSON.stringify(body)` for the fixed payload shape: `undefined`-valued
keys (`zkpValue`, `digitalProof` when absent) are omitted, a `null`-valued
`hash.last` is rendered as `null`. -/
def serializeBody (b : AnchorBody) : String :=
  "\x7b\"hash\":\x7b\"last\":" ++ jsonStringOrNull b.hashLast
    ++ ",\"new\":\"" ++ b.hashNew ++ "\"\x7d"
    ++ (match b.zkpValue with
        | none => ""
        | some z => ",\"zkpValue\":\"" ++ z ++ "\"")
    ++ (match b.digitalProof with
        | none => ""
        | some d => ",\"digitalProof\":\"" ++ d ++ "\"")
    ++ "\x7d"

/-- The first argument the write callback can be invoked with. -/
inductive WriteErr where
  | locator (e : String)
  | noService
  | rejection (r : WriteRejection)
deriving DecidableEq

/-- The human-readable message carried by a write error. -/
def WriteErr.message : WriteErr → String
  | .locator e => e
  | .noService => "No anchoring service provided"
  | .rejection r => r.message

/-- Environment of one `addVersion` call: process configuration, the BDNS
service locator's answer, and the settlement of `doPut(url, body)` per request. -/
structure WriteEnv where
  cacheVaultType : Option String
  getAnchoringServices : Except String (List String)
  doPut : String → String → Except PutErr String

/-- URL of the write request issued for one anchoring service endpoint. -/
def addUrl (service : String) (k : KeySSI) : String :=
  service ++ "/anchor/add/" ++ k.anchorId

/-- Observable outcome of one `addVersion` call: either delegated to the local
cache bypass (`cachedAnchoring.addVersion(anchorId, newHashLinkSSI.getIdentifier(),
callback)` — note only those two values cross that interface), or the network
path issuing `requests` (URL and serialized body pairs) and finishing with
`callbackResult`. -/
inductive AddVersionResult where
  | cacheBypass (anchorId : String) (newIdentifier : String)
  | network (requests : List (String × String))
      (callbackResult : Option (Except WriteErr String))
deriving DecidableEq

/-- Shallow embedding of `addVersion` from `src/anchoring/index.js`.

Faithfulness notes:
* the vault bypass check is identical to the read path's;
* one payload object is built and `JSON.stringify`-ed once, before the per-
  endpoint loop, so every endpoint receives the identical serialized body;
* each `doPut` failure is wrapped by `wrapRejection`; a success resolves with
  the response body;
* `Promise.allSettled` reports settlements in endpoint-list order; the first
  fulfilled wins, otherwise the first rejected settlement's reason is passed to
  the callback;
* the unreachable branch in which the settlement list is empty mirrors the
  JavaScript behaviour there (`rejected.reason` would throw on `undefined` with
  no `.catch` attached, so the callback would never be invoked). -/
def addVersion (env : WriteEnv) (keySSI newHashLinkSSI : KeySSI)
    (lastHashLinkSSI : Option KeySSI) (zkpValue digitalProof : Option String) :
    AddVersionResult :=
  if keySSI.dlDomain == DOMAINS_VAULT && env.cacheVaultType.isSome then
    .cacheBypass keySSI.anchorId newHashLinkSSI.identifier
  else
    match env.getAnchoringServices with
    | .error e => .network [] (some (.error (.locator e)))
    | .ok services =>
      if services.isEmpty then
        .network [] (some (.error .noService))
      else
        let body : AnchorBody :=
          { hashLast := lastHashLinkSSI.map KeySSI.identifier,
            hashNew := newHashLinkSSI.identifier,
            zkpValue := zkpValue,
            digitalProof := digitalProof }
        let bodyStr := serializeBody body
        let requests := services.map (fun s => (addUrl s keySSI, bodyStr))
        let settlements := requests.map (fun req =>
          match env.doPut req.1 req.2 with
          | .error e => Settled.rejected (wrapRejection e)
          | .ok data => Settled.fulfilled data)
        match findFirstFulfilled settlements with
        | some data => .network requests (some (.ok data))
        | none =>
          match findFirstRejected settlements with
          | some reason => .network requests (some (.error (.rejection reason)))
          | none => .network requests none

/-- Decision taken by `buildDossier`'s `builder` closure in
`src/dt/DossierBuilder.js` on the stored keySSI string: create a fresh dossier
under the configured domain (`createDossier` calls
`createTemplateSeedSSI(conf.domain)`), or proceed to load the existing one. -/
inductive BuildDecision where
  | createNew (domain : String)
  | loadExisting (keySSI : KeySSI)
deriving DecidableEq

/-- Shallow embedding of the `builder` closure's routing: an unparsable keySSI,
or a parsed keySSI whose `getDLDomain()` is truthy (non-empty) and differs from
`configOrDSU.domain`, triggers `createDossier`; otherwise the existing DSU is
loaded. -/
def builderDecision (parse : String → Except String KeySSI) (cfgDomain : String)
    (storedKeySSI : String) : BuildDecision :=
  match parse storedKeySSI with
  | .error _ => .createNew cfgDomain
  | .ok k =>
    if k.dlDomain != "" && k.dlDomain != cfgDomain then .createNew cfgDomain
    else .loadExisting k

/-! ## Spec-side model of the claimed arrival-order selection (for C1) -/

/-- The fulfilled settlements of a list, each paired with its arrival time. -/
def fulfilledWithArrival {α ε : Type} : List (Settled α ε × Nat) → List (α × Nat)
  | [] => []
  | (.fulfilled v, t) :: rest => (v, t) :: fulfilledWithArrival rest
  | (.rejected _, _) :: rest => fulfilledWithArrival rest

/-- The entry with the smallest time (leftmost on ties). -/
def earliestSettled {α : Type} : List (α × Nat) → Option (α × Nat)
  | [] => none
  | p :: rest =>
    match earliestSettled rest with
    | none => some p
    | some q => some (if q.2 < p.2 then q else p)

/-- Follows the claim C1's words, not the source: the first fulfilled response in
settlement (arrival) order — the fulfilled settlement with the earliest arrival
time. -/
def specFirstFulfilledByArrival {α ε : Type} (rs : List (Settled α ε × Nat)) :
    Option α :=
  (earliestSettled (fulfilledWithArrival rs)).map Prod.fst

/-- Follows the claim C1's words, not the source: the Version Chain a read would
return if the winner were the first fulfilled response in arrival order (decoding
as the source does). -/
def specArrivalChain (env : ReadEnv) (keySSI : KeySSI) : Option (List KeySSI) :=
  match env.getAnchoringServices with
  | .error _ => none
  | .ok services =>
    let urls := services.map (fun s => readUrl s keySSI)
    match specFirstFulfilledByArrival (urls.map (fun u => (env.fetch u, env.arrival u))) with
    | none => none
    | some resp =>
      match resp.json with
      | .rejected _ => none
      | .fulfilled hlStrings =>
        match mapKeySSIParse env.parse hlStrings with
        | .error _ => none
        | .ok hashLinks => some hashLinks

/-! ## Concrete inputs used by counterexamples and witnesses -/

/-- A keySSI of a non-vault domain used by concrete scenarios. -/
def kCex : KeySSI := { dlDomain := "d1", anchorId := "a1", identifier := "k1" }

/-- A trivially parsed keySSI whose fields all carry the parsed string. -/
def ssiOf (s : String) : KeySSI := { dlDomain := "d1", anchorId := s, identifier := s }

/-- Read scenario for C1: both endpoints fulfill, the second one settles first
(arrival time 1 versus 5). -/
def envC1 : ReadEnv :=
  { cacheVaultType := none,
    getAnchoringServices := .ok ["http://e1", "http://e2"],
    fetch := fun u =>
      if u = "http://e1/anchor/versions/a1" then .fulfilled { json := .fulfilled ["A"] }
      else .fulfilled { json := .fulfilled ["B"] },
    arrival := fun u => if u = "http://e1/anchor/versions/a1" then 5 else 1,
    parse := fun s => .ok (ssiOf s) }

/-- Read scenario witnessing the amended C1: first endpoint rejects, second
fulfills, and the second endpoint's arrival time is larger than the third's. -/
def envC1w : ReadEnv :=
  { cacheVaultType := none,
    getAnchoringServices := .ok ["http://e1", "http://e2", "http://e3"],
    fetch := fun u =>
      if u = "http://e1/anchor/versions/a1" then .rejected "unreachable"
      else if u = "http://e2/anchor/versions/a1" then .fulfilled { json := .fulfilled ["A"] }
      else .fulfilled { json := .fulfilled ["B"] },
    arrival := fun u => if u = "http://e2/anchor/versions/a1" then 9 else 1,
    parse := fun s => .ok (ssiOf s) }

/-- Write scenario for C2: the single endpoint rejects with status 500 and an
empty original error message. -/
def envC2 : WriteEnv :=
  { cacheVaultType := none,
    getAnchoringServices := .ok ["http://e1"],
    doPut := fun _ _ => .error { statusCode := some 500, message := some "" } }

/-- Write scenario witnessing the amended C2: both endpoints reject, the first
with a conflict status 428. -/
def envC2w : WriteEnv :=
  { cacheVaultType := none,
    getAnchoringServices := .ok ["http://e1", "http://e2"],
    doPut := fun u _ =>
      if u = "http://e1/anchor/add/a1" then .error { statusCode := some 428, message := some "precondition" }
      else .error { statusCode := some 500, message := some "boom" } }

/-- The new version pointer used by concrete write scenarios. -/
def newCex : KeySSI := { dlDomain := "d1", anchorId := "n1", identifier := "hlNew" }

/-- The previous version pointer used by concrete write scenarios. -/
def lastCex : KeySSI := { dlDomain := "d1", anchorId := "l1", identifier := "hlLast" }

/-- Write scenario for C3: first endpoint rejects, second accepts. -/
def envC3 : WriteEnv :=
  { cacheVaultType := none,
    getAnchoringServices := .ok ["http://e1", "http://e2", "http://e3"],
    doPut := fun u _ =>
      if u = "http://e2/anchor/add/a1" then .ok "accepted"
      else .error { statusCode := some 428, message := none } }

/-- Read environment for C4: the locator answers with an empty endpoint list. -/
def envC4r : ReadEnv :=
  { cacheVaultType := none,
    getAnchoringServices := .ok [],
    fetch := fun _ => .rejected "unused",
    arrival := fun _ => 0,
    parse := fun s => .ok (ssiOf s) }

/-- Write environment for C4: the locator answers with an empty endpoint list. -/
def envC4w : WriteEnv :=
  { cacheVaultType := none,
    getAnchoringServices := .ok [],
    doPut := fun _ _ => .ok "unused" }

/-- Read scenario for C5: both endpoints' requests reject. -/
def envC5 : ReadEnv :=
  { cacheVaultType := none,
    getAnchoringServices := .ok ["http://e1", "http://e2"],
    fetch := fun _ => .rejected "timeout",
    arrival := fun _ => 0,
    parse := fun s => .ok (ssiOf s) }

/-- A keySSI in the vault domain, for the C6 bypass scenario. -/
def kVault : KeySSI := { dlDomain := "vault", anchorId := "aV", identifier := "kV" }

/-- Read environment for C6 with a configured cache mode. -/
def envC6r : ReadEnv :=
  { cacheVaultType := some "memory",
    getAnchoringServices := .ok ["http://e1"],
    fetch := fun _ => .rejected "must not be called",
    arrival := fun _ => 0,
    parse := fun s => .ok (ssiOf s) }

/-- Write environment for C6 with a configured cache mode. -/
def envC6w : WriteEnv :=
  { cacheVaultType := some "memory",
    getAnchoringServices := .ok ["http://e1"],
    doPut := fun _ _ => .ok "must not be called" }

/-- Write environment for C7: two endpoints, both accept. -/
def envC7 : WriteEnv :=
  { cacheVaultType := none,
    getAnchoringServices := .ok ["http://e1", "http://e2"],
    doPut := fun _ _ => .ok "accepted" }

/-- The parse function of the C8 scenario: `"bad"` fails to parse, anything else
parses to a keySSI recording the given domain. -/
def parseC8 : String → Except String KeySSI := fun s =>
  if s = "bad" then .error "Invalid keySSI"
  else .ok { dlDomain := "other-domain", anchorId := s, identifier := s }

/-- Write environment for C9: both endpoints reject with distinct reasons. -/
def envC9 : WriteEnv :=
  { cacheVaultType := none,
    getAnchoringServices := .ok ["http://e1", "http://e2"],
    doPut := fun u _ =>
      if u = "http://e1/anchor/add/a1" then .error { statusCode := some 500, message := some "first down" }
      else .error { statusCode := some 503, message := some "second down" } }

/-- Read scenario for C10: the single endpoint fulfills but its body fails JSON
decoding. -/
def envC10 : ReadEnv :=
  { cacheVaultType := none,
    getAnchoringServices := .ok ["http://e1"],
    fetch := fun _ => .fulfilled { json := .rejected "unexpected token" },
    arrival := fun _ => 0,
    parse := fun s => .ok (ssiOf s) }

/-! ## Helper lemmas about settlement lists -/

theorem isEmpty_eq_false_of_ne_nil {α : Type} (l : List α) (h : l ≠ []) :
    l.isEmpty = false := by
  cases l with
  | nil => exact absurd rfl h
  | cons a t => rfl

theorem findFirstFulfilled_rejected_cons {α ε : Type} (r : ε) (l : List (Settled α ε)) :
    findFirstFulfilled (.rejected r :: l) = findFirstFulfilled l := rfl

theorem findFirstFulfilled_eq_none {α ε : Type} (l : List (Settled α ε))
    (h : ∀ x ∈ l, ∃ r, x = .rejected r) : findFirstFulfilled l = none := by
  induction l with
  | nil => rfl
  | cons x rest ih =>
    obtain ⟨r, hr⟩ := h x (List.mem_cons_self x rest)
    subst hr
    rw [findFirstFulfilled_rejected_cons]
    exact ih fun y hy => h y (List.mem_cons_of_mem _ hy)

theorem findFirstFulfilled_append_rejected {α ε : Type} (l₁ l₂ : List (Settled α ε)) (v : α)
    (h : ∀ x ∈ l₁, ∃ r, x = .rejected r) :
    findFirstFulfilled (l₁ ++ .fulfilled v :: l₂) = some v := by
  induction l₁ with
  | nil => rfl
  | cons x rest ih =>
    obtain ⟨r, hr⟩ := h x (List.mem_cons_self x rest)
    subst hr
    rw [List.cons_append, findFirstFulfilled_rejected_cons]
    exact ih fun y hy => h y (List.mem_cons_of_mem _ hy)

theorem findFirstFulfilled_mem {α ε : Type} (l : List (Settled α ε)) (v : α)
    (h : findFirstFulfilled l = some v) : Settled.fulfilled v ∈ l := by
  induction l with
  | nil => exact absurd h (by simp [findFirstFulfilled])
  | cons x rest ih =>
    cases x with
    | fulfilled w =>
      have : w = v := by
        have hw : some w = some v := h
        exact Option.some.inj hw
      subst this
      exact List.mem_cons_self _ _
    | rejected r =>
      rw [findFirstFulfilled_rejected_cons] at h
      exact List.mem_cons_of_mem _ (ih h)

theorem findFirstFulfilled_isSome_of_mem {α ε : Type} (l : List (Settled α ε)) (v : α)
    (h : Settled.fulfilled v ∈ l) : ∃ w, findFirstFulfilled l = some w := by
  induction l with
  | nil => cases h
  | cons x rest ih =>
    cases x with
    | fulfilled w => exact ⟨w, rfl⟩
    | rejected r =>
      rw [findFirstFulfilled_rejected_cons]
      rcases List.mem_cons.mp h with h1 | h2
      · exact absurd h1 (by simp)
      · exact ih h2

theorem findFirstRejected_fulfilled_cons {α ε : Type} (v : α) (l : List (Settled α ε)) :
    findFirstRejected (.fulfilled v :: l) = findFirstRejected l := rfl

theorem findFirstRejected_mem {α ε : Type} (l : List (Settled α ε)) (r : ε)
    (h : findFirstRejected l = some r) : Settled.rejected r ∈ l := by
  induction l with
  | nil => exact absurd h (by simp [findFirstRejected])
  | cons x rest ih =>
    cases x with
    | rejected w =>
      have : w = r := by
        have hw : some w = some r := h
        exact Option.some.inj hw
      subst this
      exact List.mem_cons_self _ _
    | fulfilled v =>
      rw [findFirstRejected_fulfilled_cons] at h
      exact List.mem_cons_of_mem _ (ih h)

/-! ## Reduction lemmas: routing to the network path -/

theorem versions_network_shape (env : ReadEnv) (k : KeySSI)
    (h : (k.dlDomain == DOMAINS_VAULT && env.cacheVaultType.isSome) = false) :
    ∃ reqs res, versions env k = .network reqs res := by
  unfold versions
  rw [h]
  simp only [Bool.false_eq_true, if_false]
  repeat' split
  all_goals exact ⟨_, _, rfl⟩

theorem versions_network_path (env : ReadEnv) (k : KeySSI) (services : List String)
    (hnb : (k.dlDomain == DOMAINS_VAULT && env.cacheVaultType.isSome) = false)
    (hloc : env.getAnchoringServices = .ok services) (hne : services ≠ []) :
    versions env k =
      match findFirstFulfilled ((services.map (fun s => readUrl s k)).map env.fetch) with
      | none => .network (services.map (fun s => readUrl s k)) (some (.error .raceTypeError))
      | some resp =>
        match resp.json with
        | .rejected _ => .network (services.map (fun s => readUrl s k)) none
        | .fulfilled hlStrings =>
          match mapKeySSIParse env.parse hlStrings with
          | .error _ => .network (services.map (fun s => readUrl s k)) none
          | .ok hashLinks =>
            .network (services.map (fun s => readUrl s k)) (some (.ok hashLinks)) := by
  unfold versions
  rw [hnb, hloc]
  simp only [Bool.false_eq_true, if_false, isEmpty_eq_false_of_ne_nil services hne]

/-- The single payload built by one `addVersion` call. -/
def builtBody (newHashLinkSSI : KeySSI) (lastHashLinkSSI : Option KeySSI)
    (zkpValue digitalProof : Option String) : AnchorBody :=
  { hashLast := lastHashLinkSSI.map KeySSI.identifier,
    hashNew := newHashLinkSSI.identifier,
    zkpValue := zkpValue,
    digitalProof := digitalProof }

/-- The request list one `addVersion` call issues on the network path. -/
def builtRequests (services : List String) (k newHashLinkSSI : KeySSI)
    (lastHashLinkSSI : Option KeySSI) (zkpValue digitalProof : Option String) :
    List (String × String) :=
  services.map (fun s =>
    (addUrl s k, serializeBody (builtBody newHashLinkSSI lastHashLinkSSI zkpValue digitalProof)))

/-- The settlement, in endpoint-list order, of the `doPut` fan-out. -/
def putSettlements (env : WriteEnv) (requests : List (String × String)) :
    List (Settled String WriteRejection) :=
  requests.map (fun req =>
    match env.doPut req.1 req.2 with
    | .error e => Settled.rejected (wrapRejection e)
    | .ok data => Settled.fulfilled data)

theorem addVersion_network_shape (env : WriteEnv) (k new : KeySSI)
    (last : Option KeySSI) (z d : Option String)
    (h : (k.dlDomain == DOMAINS_VAULT && env.cacheVaultType.isSome) = false) :
    ∃ reqs res, addVersion env k new last z d = .network reqs res := by
  unfold addVersion
  rw [h]
  simp only [Bool.false_eq_true, if_false]
  repeat' split
  all_goals exact ⟨_, _, rfl⟩

theorem addVersion_network_path (env : WriteEnv) (k new : KeySSI)
    (last : Option KeySSI) (z d : Option String) (services : List String)
    (hnb : (k.dlDomain == DOMAINS_VAULT && env.cacheVaultType.isSome) = false)
    (hloc : env.getAnchoringServices = .ok services) (hne : services ≠ []) :
    addVersion env k new last z d =
      match findFirstFulfilled (putSettlements env (builtRequests services k new last z d)) with
      | some data => .network (builtRequests services k new last z d) (some (.ok data))
      | none =>
        match findFirstRejected (putSettlements env (builtRequests services k new last z d)) with
        | some reason =>
          .network (builtRequests services k new last z d)
            (some (.error (.rejection reason)))
        | none => .network (builtRequests services k new last z d) none := by
  unfold addVersion
  rw [hnb, hloc]
  simp only [Bool.false_eq_true, if_false, isEmpty_eq_false_of_ne_nil services hne]
  rfl

theorem findFirstRejected_isSome {α ε : Type} (l : List (Settled α ε)) (hne : l ≠ [])
    (h : ∀ x ∈ l, ∃ r, x = .rejected r) : ∃ r, findFirstRejected l = some r := by
  cases l with
  | nil => exact absurd rfl hne
  | cons x rest =>
    obtain ⟨r, hr⟩ := h x (List.mem_cons_self x rest)
    subst hr
    exact ⟨r, rfl⟩

theorem putSettlements_mem_fulfilled (env : WriteEnv) (reqs : List (String × String))
    (data : String) (h : Settled.fulfilled data ∈ putSettlements env reqs) :
    ∃ req ∈ reqs, env.doPut req.1 req.2 = .ok data := by
  obtain ⟨req, hreq, heq⟩ := List.mem_map.mp h
  refine ⟨req, hreq, ?_⟩
  cases hdp : env.doPut req.1 req.2 with
  | error e => rw [hdp] at heq; exact absurd heq (by simp)
  | ok data2 =>
    rw [hdp] at heq
    simp only [Settled.fulfilled.injEq] at heq
    rw [heq]

theorem putSettlements_mem_rejected (env : WriteEnv) (reqs : List (String × String))
    (r : WriteRejection) (h : Settled.rejected r ∈ putSettlements env reqs) :
    ∃ req ∈ reqs, ∃ e, env.doPut req.1 req.2 = .error e ∧ r = wrapRejection e := by
  obtain ⟨req, hreq, heq⟩ := List.mem_map.mp h
  refine ⟨req, hreq, ?_⟩
  cases hdp : env.doPut req.1 req.2 with
  | ok data => rw [hdp] at heq; exact absurd heq (by simp)
  | error e =>
    rw [hdp] at heq
    simp only [Settled.rejected.injEq] at heq
    exact ⟨e, rfl, heq.symm⟩

theorem putSettlements_fulfilled_of_ok (env : WriteEnv) (reqs : List (String × String))
    (req : String × String) (data : String) (hreq : req ∈ reqs)
    (hdp : env.doPut req.1 req.2 = .ok data) :
    Settled.fulfilled data ∈ putSettlements env reqs := by
  refine List.mem_map.mpr ⟨req, hreq, ?_⟩
  rw [hdp]

theorem putSettlements_all_rejected (env : WriteEnv) (reqs : List (String × String))
    (h : ∀ req ∈ reqs, ∃ e, env.doPut req.1 req.2 = .error e) :
    ∀ x ∈ putSettlements env reqs, ∃ r, x = .rejected r := by
  intro x hx
  obtain ⟨req, hreq, heq⟩ := List.mem_map.mp hx
  obtain ⟨e, he⟩ := h req hreq
  refine ⟨wrapRejection e, ?_⟩
  rw [← heq, he]

/-! ## Claim C1 — read winner selection order -/

/-- Claim C1 counterexample: with two endpoints that both fulfill, the second
settling first (arrival 1 versus 5), the code still decodes the first endpoint's
body (`["A"]`): `Promise.allSettled` reports outcomes in endpoint-list order, so
the winner is not the first fulfilled response in settlement (arrival) order,
which would be the second endpoint's body (`["B"]`). -/
theorem C1_counterexample :
    versions envC1 kCex =
      .network ["http://e1/anchor/versions/a1", "http://e2/anchor/versions/a1"]
        (some (.ok [ssiOf "A"])) ∧
    specArrivalChain envC1 kCex = some [ssiOf "B"] ∧
    envC1.arrival "http://e2/anchor/versions/a1" <
      envC1.arrival "http://e1/anchor/versions/a1" ∧
    ssiOf "A" ≠ ssiOf "B" :=
  ⟨rfl, rfl, by decide, by decide⟩

/-- Claim C1 (amended): the response selected and decoded into the Version Chain
is the first fulfilled response in endpoint-list order — the order of the Service
Locator's list, which `Promise.allSettled` preserves — independent of every
endpoint's arrival time (the `env.arrival` field is unconstrained here). -/
theorem C1_amended_endpoint_list_order (env : ReadEnv) (k : KeySSI)
    (pre rest : List String) (winner : String) (resp : ReadResponse)
    (hlStrings : List String) (chain : List KeySSI)
    (hnb : (k.dlDomain == DOMAINS_VAULT && env.cacheVaultType.isSome) = false)
    (hloc : env.getAnchoringServices = .ok (pre ++ winner :: rest))
    (hpre : ∀ s ∈ pre, ∃ r, env.fetch (readUrl s k) = .rejected r)
    (hwin : env.fetch (readUrl winner k) = .fulfilled resp)
    (hjson : resp.json = .fulfilled hlStrings)
    (hparse : mapKeySSIParse env.parse hlStrings = .ok chain) :
    versions env k =
      .network ((pre ++ winner :: rest).map (fun s => readUrl s k)) (some (.ok chain)) := by
  have hne : pre ++ winner :: rest ≠ [] := by simp
  have hfind : findFirstFulfilled
      (((pre ++ winner :: rest).map (fun s => readUrl s k)).map env.fetch) = some resp := by
    simp only [List.map_append, List.map_cons]
    rw [hwin]
    apply findFirstFulfilled_append_rejected
    intro x hx
    obtain ⟨u, hu, hxeq⟩ := List.mem_map.mp hx
    obtain ⟨s, hs, hueq⟩ := List.mem_map.mp hu
    obtain ⟨r, hr⟩ := hpre s hs
    exact ⟨r, by rw [← hxeq, ← hueq, hr]⟩
  rw [versions_network_path env k (pre ++ winner :: rest) hnb hloc hne]
  simp only [hfind, hjson, hparse]

/-- Witness for the amended C1: first endpoint rejected, second fulfilled with
`["A"]`, third fulfilled with `["B"]`; although the second endpoint arrives last
(arrival 9 versus 1), its chain is returned. -/
theorem C1_amended_endpoint_list_order_witness :
    versions envC1w kCex =
      .network ["http://e1/anchor/versions/a1", "http://e2/anchor/versions/a1",
        "http://e3/anchor/versions/a1"] (some (.ok [ssiOf "A"])) := by
  have h := C1_amended_endpoint_list_order envC1w kCex ["http://e1"] ["http://e3"]
    "http://e2" { json := .fulfilled ["A"] } ["A"] [ssiOf "A"] rfl rfl
    (by
      intro s hs
      rw [List.mem_singleton] at hs
      subst hs
      exact ⟨"unreachable", rfl⟩)
    rfl rfl rfl
  exact h

/-! ## Claim C2 — conflict translation on total write failure -/

/-- Claim C2 counterexample: one endpoint rejecting with status 500 and an empty
original error message; the delivered rejection's message is the fallback
`"Error"`, not the rejection's original (empty) error message. -/
theorem C2_counterexample :
    envC2.doPut "http://e1/anchor/add/a1" (serializeBody (builtBody newCex none none none)) =
      .error { statusCode := some 500, message := some "" } ∧
    addVersion envC2 kCex newCex none none none =
      .network [("http://e1/anchor/add/a1", serializeBody (builtBody newCex none none none))]
        (some (.error (.rejection { statusCode := some 500, message := "Error" }))) ∧
    ("Error" : String) ≠ "" :=
  ⟨rfl, rfl, by decide⟩

/-- Claim C2 (amended): when every endpoint rejects, the error delivered to the
caller is the wrapped reason of the first listed endpoint's rejection; its
message is the distinguished conflict string when that rejection's status code is
428, and otherwise the rejection's original error message when that message is
present and non-empty, with the fallback `"Error"` when it is absent or empty.
The conflict case thus stays distinguishable from a generic transport failure. -/
theorem C2_amended_conflict_translation (env : WriteEnv) (k new : KeySSI)
    (last : Option KeySSI) (z d : Option String) (first : String) (rest : List String)
    (e : PutErr)
    (hnb : (k.dlDomain == DOMAINS_VAULT && env.cacheVaultType.isSome) = false)
    (hloc : env.getAnchoringServices = .ok (first :: rest))
    (hall : ∀ s ∈ first :: rest, ∃ err,
      env.doPut (addUrl s k) (serializeBody (builtBody new last z d)) = .error err)
    (hfirst : env.doPut (addUrl first k) (serializeBody (builtBody new last z d)) = .error e) :
    (addVersion env k new last z d =
      .network (builtRequests (first :: rest) k new last z d)
        (some (.error (.rejection (wrapRejection e))))) ∧
    (wrapRejection e).statusCode = e.statusCode ∧
    (e.statusCode = some 428 → (wrapRejection e).message = conflictMessage) ∧
    (e.statusCode ≠ some 428 →
      (wrapRejection e).message = jsStringOrElse e.message "Error") := by
  refine ⟨?_, rfl, ?_, ?_⟩
  · have hne : first :: rest ≠ [] := by simp
    have hallset : ∀ x ∈ putSettlements env (builtRequests (first :: rest) k new last z d),
        ∃ r, x = .rejected r := by
      apply putSettlements_all_rejected
      intro req hreq
      obtain ⟨s, hs, heq⟩ := List.mem_map.mp hreq
      obtain ⟨err, herr⟩ := hall s hs
      exact ⟨err, by rw [← heq]; exact herr⟩
    have hnone : findFirstFulfilled
        (putSettlements env (builtRequests (first :: rest) k new last z d)) = none :=
      findFirstFulfilled_eq_none _ hallset
    have hfr : findFirstRejected
        (putSettlements env (builtRequests (first :: rest) k new last z d)) =
        some (wrapRejection e) := by
      unfold builtRequests putSettlements
      simp only [List.map_cons, hfirst]
      rfl
    rw [addVersion_network_path env k new last z d (first :: rest) hnb hloc hne]
    simp only [hnone, hfr]
  · intro h428
    unfold wrapRejection
    simp [h428]
  · intro hne428
    unfold wrapRejection
    simp [beq_iff_eq, hne428]

/-- Witness for the amended C2: two endpoints, both rejecting; the first rejects
with status 428 and original message "precondition", and the caller receives the
distinguished conflict message with status 428. -/
theorem C2_amended_conflict_translation_witness :
    addVersion envC2w kCex newCex none none none =
      .network (builtRequests ["http://e1", "http://e2"] kCex newCex none none none)
        (some (.error (.rejection
          { statusCode := some 428, message := conflictMessage }))) := by
  have h := C2_amended_conflict_translation envC2w kCex newCex none none none
    "http://e1" ["http://e2"] { statusCode := some 428, message := some "precondition" }
    rfl rfl
    (by
      intro s hs
      rcases List.mem_cons.mp hs with h1 | h2
      · subst h1
        exact ⟨{ statusCode := some 428, message := some "precondition" }, rfl⟩
      · rw [List.mem_singleton] at h2
        subst h2
        exact ⟨{ statusCode := some 500, message := some "boom" }, rfl⟩)
    rfl
  exact h.1

/-! ## Claim C3 — single acceptance wins, total rejection fails with a true cause -/

/-- Claim C3: on the write network path, if some endpoint's request fulfills then
the call succeeds and the callback value is a fulfilled endpoint's response body,
even if every other endpoint rejected; and if every endpoint rejects then the
call fails and the callback receives the wrapped reason of one of the actual
rejections.  The two hypotheses partition all outcomes (each `doPut` settlement
is either `ok` or `error`), and the two conclusions are incompatible results, so
the failure case holds if and only if every endpoint rejected. -/
theorem C3_single_acceptance_wins (env : WriteEnv) (k new : KeySSI)
    (last : Option KeySSI) (z d : Option String) (services : List String)
    (hnb : (k.dlDomain == DOMAINS_VAULT && env.cacheVaultType.isSome) = false)
    (hloc : env.getAnchoringServices = .ok services) (hne : services ≠ []) :
    ((∃ s ∈ services, ∃ data,
        env.doPut (addUrl s k) (serializeBody (builtBody new last z d)) = .ok data) →
      ∃ data, addVersion env k new last z d =
          .network (builtRequests services k new last z d) (some (.ok data)) ∧
        ∃ s ∈ services,
          env.doPut (addUrl s k) (serializeBody (builtBody new last z d)) = .ok data) ∧
    ((∀ s ∈ services, ∃ e,
        env.doPut (addUrl s k) (serializeBody (builtBody new last z d)) = .error e) →
      ∃ e, addVersion env k new last z d =
          .network (builtRequests services k new last z d)
            (some (.error (.rejection (wrapRejection e)))) ∧
        ∃ s ∈ services,
          env.doPut (addUrl s k) (serializeBody (builtBody new last z d)) = .error e) := by
  constructor
  · rintro ⟨s, hs, data, hdp⟩
    have hmemreq : (addUrl s k, serializeBody (builtBody new last z d)) ∈
        builtRequests services k new last z d := List.mem_map.mpr ⟨s, hs, rfl⟩
    have hmem : Settled.fulfilled data ∈
        putSettlements env (builtRequests services k new last z d) :=
      putSettlements_fulfilled_of_ok env _ _ data hmemreq hdp
    obtain ⟨w, hw⟩ := findFirstFulfilled_isSome_of_mem _ _ hmem
    have hwinmem := findFirstFulfilled_mem _ _ hw
    obtain ⟨req, hreq, hdpw⟩ := putSettlements_mem_fulfilled env _ _ hwinmem
    obtain ⟨s2, hs2, hreqeq⟩ := List.mem_map.mp hreq
    refine ⟨w, ?_, s2, hs2, ?_⟩
    · rw [addVersion_network_path env k new last z d services hnb hloc hne]
      simp only [hw]
    · rw [← hreqeq] at hdpw
      exact hdpw
  · intro hall
    have hallset : ∀ x ∈ putSettlements env (builtRequests services k new last z d),
        ∃ r, x = .rejected r := by
      apply putSettlements_all_rejected
      intro req hreq
      obtain ⟨s, hs, heq⟩ := List.mem_map.mp hreq
      obtain ⟨e, he⟩ := hall s hs
      exact ⟨e, by rw [← heq]; exact he⟩
    have hnone : findFirstFulfilled
        (putSettlements env (builtRequests services k new last z d)) = none :=
      findFirstFulfilled_eq_none _ hallset
    have hsetne : putSettlements env (builtRequests services k new last z d) ≠ [] := by
      cases services with
      | nil => exact absurd rfl hne
      | cons a t => simp [putSettlements, builtRequests]
    obtain ⟨r, hr⟩ := findFirstRejected_isSome _ hsetne hallset
    have hrmem := findFirstRejected_mem _ _ hr
    obtain ⟨req, hreq, e, he, hre⟩ := putSettlements_mem_rejected env _ _ hrmem
    obtain ⟨s, hs, hreqeq⟩ := List.mem_map.mp hreq
    refine ⟨e, ?_, s, hs, ?_⟩
    · rw [addVersion_network_path env k new last z d services hnb hloc hne]
      simp only [hnone, hr, hre]
    · rw [← hreqeq] at he
      exact he

/-- Witness for C3: three endpoints, the middle one accepts and the two others
reject with a conflict status, and the call still succeeds with the accepted
endpoint's response body. -/
theorem C3_single_acceptance_wins_witness :
    ∃ data, addVersion envC3 kCex newCex none none none =
        .network (builtRequests ["http://e1", "http://e2", "http://e3"] kCex newCex none none none)
          (some (.ok data)) ∧
      ∃ s ∈ ["http://e1", "http://e2", "http://e3"],
        envC3.doPut (addUrl s kCex) (serializeBody (builtBody newCex none none none)) =
          .ok data :=
  (C3_single_acceptance_wins envC3 kCex newCex none none none
      ["http://e1", "http://e2", "http://e3"] rfl rfl (by decide)).1
    ⟨"http://e2", by decide, "accepted", rfl⟩

/-! ## Claim C4 — empty endpoint list is an immediate fatal error -/

/-- Claim C4: on both the read and the write network path, a Service Locator
answer with an empty endpoint list makes the call fail at once with the error
whose message is "No anchoring service provided", with an empty issued-request
list (no per-endpoint request, and the embedded call is a single pass with no
retry). -/
theorem C4_empty_locator_fails_immediately (envR : ReadEnv) (envW : WriteEnv)
    (k new : KeySSI) (last : Option KeySSI) (z d : Option String)
    (hnbR : (k.dlDomain == DOMAINS_VAULT && envR.cacheVaultType.isSome) = false)
    (hnbW : (k.dlDomain == DOMAINS_VAULT && envW.cacheVaultType.isSome) = false)
    (hlocR : envR.getAnchoringServices = .ok [])
    (hlocW : envW.getAnchoringServices = .ok []) :
    versions envR k = .network [] (some (.error .noService)) ∧
    addVersion envW k new last z d = .network [] (some (.error .noService)) ∧
    ReadErr.message .noService = "No anchoring service provided" ∧
    WriteErr.message .noService = "No anchoring service provided" := by
  refine ⟨?_, ?_, rfl, rfl⟩
  · unfold versions
    rw [hnbR, hlocR]
    simp
  · unfold addVersion
    rw [hnbW, hlocW]
    simp

/-- Witness for C4: concrete environments whose locator answers `[]`. -/
theorem C4_empty_locator_fails_immediately_witness :
    versions envC4r kCex = .network [] (some (.error .noService)) ∧
    addVersion envC4w kCex newCex none none none =
      .network [] (some (.error .noService)) := by
  have h := C4_empty_locator_fails_immediately envC4r envC4w kCex newCex none none none
    rfl rfl rfl rfl
  exact ⟨h.1, h.2.1⟩

/-! ## Claim C5 — read with no fulfilled response fails, never yields a chain -/

/-- Claim C5: on the read network path, when every endpoint's request rejects,
the callback is invoked with an error (the TypeError thrown on the undefined
winner, caught by the trailing `.catch`) and never with a Version Chain. -/
theorem C5_read_total_failure (env : ReadEnv) (k : KeySSI) (services : List String)
    (hnb : (k.dlDomain == DOMAINS_VAULT && env.cacheVaultType.isSome) = false)
    (hloc : env.getAnchoringServices = .ok services) (hne : services ≠ [])
    (hall : ∀ s ∈ services, ∃ r, env.fetch (readUrl s k) = .rejected r) :
    versions env k =
      .network (services.map (fun s => readUrl s k)) (some (.error .raceTypeError)) := by
  have hnone : findFirstFulfilled
      ((services.map (fun s => readUrl s k)).map env.fetch) = none := by
    apply findFirstFulfilled_eq_none
    intro x hx
    obtain ⟨u, hu, hxeq⟩ := List.mem_map.mp hx
    obtain ⟨s, hs, hueq⟩ := List.mem_map.mp hu
    obtain ⟨r, hr⟩ := hall s hs
    exact ⟨r, by rw [← hxeq, ← hueq, hr]⟩
  rw [versions_network_path env k services hnb hloc hne, hnone]

/-- Witness for C5: two endpoints, both rejecting. -/
theorem C5_read_total_failure_witness :
    versions envC5 kCex =
      .network ["http://e1/anchor/versions/a1", "http://e2/anchor/versions/a1"]
        (some (.error .raceTypeError)) := by
  have h := C5_read_total_failure envC5 kCex ["http://e1", "http://e2"] rfl rfl
    (by decide) (fun s _ => ⟨"timeout", rfl⟩)
  exact h

/-! ## Claim C6 — vault cache-bypass routing -/

/-- Claim C6: a call is delegated to the Local Cache Bypass collaborator if and
only if the identifier's domain is the designated vault fast-path domain and a
cache-mode value is configured; on the bypass, the read passes only the anchor
identifier and the write passes only the anchor identifier and the new pointer's
identifier (the result is the same for every previous pointer, `zkpValue` and
`digitalProof`, which are dropped), and no network request is issued (the
`cacheBypass` outcome carries no request list by construction). -/
theorem C6_bypass_routing (envR : ReadEnv) (envW : WriteEnv) (k new : KeySSI)
    (last : Option KeySSI) (z d : Option String) :
    ((∃ a, versions envR k = .cacheBypass a) ↔
      (k.dlDomain = DOMAINS_VAULT ∧ envR.cacheVaultType.isSome = true)) ∧
    ((∃ a n, addVersion envW k new last z d = .cacheBypass a n) ↔
      (k.dlDomain = DOMAINS_VAULT ∧ envW.cacheVaultType.isSome = true)) ∧
    (k.dlDomain = DOMAINS_VAULT → envR.cacheVaultType.isSome = true →
      versions envR k = .cacheBypass k.anchorId) ∧
    (k.dlDomain = DOMAINS_VAULT → envW.cacheVaultType.isSome = true →
      addVersion envW k new last z d = .cacheBypass k.anchorId new.identifier) := by
  have hR : k.dlDomain = DOMAINS_VAULT → envR.cacheVaultType.isSome = true →
      versions envR k = .cacheBypass k.anchorId := by
    intro h1 h2
    unfold versions
    simp [h1, h2]
  have hW : k.dlDomain = DOMAINS_VAULT → envW.cacheVaultType.isSome = true →
      addVersion envW k new last z d = .cacheBypass k.anchorId new.identifier := by
    intro h1 h2
    unfold addVersion
    simp [h1, h2]
  refine ⟨⟨?_, fun h => ⟨k.anchorId, hR h.1 h.2⟩⟩,
          ⟨?_, fun h => ⟨k.anchorId, new.identifier, hW h.1 h.2⟩⟩, hR, hW⟩
  · rintro ⟨a, ha⟩
    by_cases hc : (k.dlDomain == DOMAINS_VAULT && envR.cacheVaultType.isSome) = true
    · simpa [Bool.and_eq_true, beq_iff_eq] using hc
    · obtain ⟨reqs, res, heq⟩ := versions_network_shape envR k (eq_false_of_ne_true hc)
      rw [heq] at ha
      exact absurd ha (by simp)
  · rintro ⟨a, n, ha⟩
    by_cases hc : (k.dlDomain == DOMAINS_VAULT && envW.cacheVaultType.isSome) = true
    · simpa [Bool.and_eq_true, beq_iff_eq] using hc
    · obtain ⟨reqs, res, heq⟩ :=
        addVersion_network_shape envW k new last z d (eq_false_of_ne_true hc)
      rw [heq] at ha
      exact absurd ha (by simp)

/-- Witness for C6: a vault-domain keySSI with a configured cache mode; the read
bypass carries the anchor identifier and the write bypass carries only the
anchor identifier and the new pointer's identifier even though a previous
pointer, a zkpValue and a digitalProof were all supplied. -/
theorem C6_bypass_routing_witness :
    versions envC6r kVault = .cacheBypass "aV" ∧
    addVersion envC6w kVault newCex (some lastCex) (some "zkp") (some "proof") =
      .cacheBypass "aV" "hlNew" :=
  ⟨(C6_bypass_routing envC6r envC6w kVault newCex (some lastCex) (some "zkp")
      (some "proof")).2.2.1 rfl rfl,
   (C6_bypass_routing envC6r envC6w kVault newCex (some lastCex) (some "zkp")
      (some "proof")).2.2.2 rfl rfl⟩

/-! ## Claim C7 — one shared serialized payload per write fan-out -/

/-- Claim C7: on the write network path exactly one payload is built —
`builtBody`, whose `hash.last` is the previous pointer's identifier or null,
whose `hash.new` is the new pointer's identifier, and whose `zkpValue` and
`digitalProof` are carried verbatim — and the identical serialized body is sent
by PUT to `{endpoint}/anchor/add/{anchorId}` for every endpoint. -/
theorem C7_one_shared_payload (env : WriteEnv) (k new : KeySSI) (last : Option KeySSI)
    (z d : Option String) (services : List String)
    (hnb : (k.dlDomain == DOMAINS_VAULT && env.cacheVaultType.isSome) = false)
    (hloc : env.getAnchoringServices = .ok services) (hne : services ≠ []) :
    ∃ res, addVersion env k new last z d =
        .network (services.map (fun s =>
          (addUrl s k, serializeBody (builtBody new last z d)))) res ∧
      (∀ req ∈ builtRequests services k new last z d,
        req.2 = serializeBody (builtBody new last z d)) ∧
      (∀ s ∈ services,
        (s ++ "/anchor/add/" ++ k.anchorId, serializeBody (builtBody new last z d)) ∈
          builtRequests services k new last z d) ∧
      (builtBody new last z d).hashLast = last.map KeySSI.identifier ∧
      (builtBody new last z d).hashNew = new.identifier ∧
      (builtBody new last z d).zkpValue = z ∧
      (builtBody new last z d).digitalProof = d := by
  have hbodies : ∀ req ∈ builtRequests services k new last z d,
      req.2 = serializeBody (builtBody new last z d) := by
    intro req hreq
    obtain ⟨s, _, heq⟩ := List.mem_map.mp hreq
    rw [← heq]
  have hmem : ∀ s ∈ services,
      (s ++ "/anchor/add/" ++ k.anchorId, serializeBody (builtBody new last z d)) ∈
        builtRequests services k new last z d := by
    intro s hs
    exact List.mem_map.mpr ⟨s, hs, rfl⟩
  rw [addVersion_network_path env k new last z d services hnb hloc hne]
  split
  · exact ⟨_, rfl, hbodies, hmem, rfl, rfl, rfl, rfl⟩
  · split
    · exact ⟨_, rfl, hbodies, hmem, rfl, rfl, rfl, rfl⟩
    · exact ⟨_, rfl, hbodies, hmem, rfl, rfl, rfl, rfl⟩

/-- Witness for C7: two endpoints, a supplied previous pointer, zkpValue and
digitalProof. -/
theorem C7_one_shared_payload_witness :
    ∃ res, addVersion envC7 kCex newCex (some lastCex) (some "z1") (some "d1") =
        .network (["http://e1", "http://e2"].map (fun s =>
          (addUrl s kCex, serializeBody (builtBody newCex (some lastCex) (some "z1") (some "d1"))))) res ∧
      (∀ req ∈ builtRequests ["http://e1", "http://e2"] kCex newCex (some lastCex) (some "z1") (some "d1"),
        req.2 = serializeBody (builtBody newCex (some lastCex) (some "z1") (some "d1"))) ∧
      (∀ s ∈ ["http://e1", "http://e2"],
        (s ++ "/anchor/add/" ++ kCex.anchorId,
          serializeBody (builtBody newCex (some lastCex) (some "z1") (some "d1"))) ∈
          builtRequests ["http://e1", "http://e2"] kCex newCex (some lastCex) (some "z1") (some "d1")) ∧
      (builtBody newCex (some lastCex) (some "z1") (some "d1")).hashLast = some "hlLast" ∧
      (builtBody newCex (some lastCex) (some "z1") (some "d1")).hashNew = "hlNew" ∧
      (builtBody newCex (some lastCex) (some "z1") (some "d1")).zkpValue = some "z1" ∧
      (builtBody newCex (some lastCex) (some "z1") (some "d1")).digitalProof = some "d1" :=
  C7_one_shared_payload envC7 kCex newCex (some lastCex) (some "z1") (some "d1")
    ["http://e1", "http://e2"] rfl rfl (by decide)

/-! ## Claim C8 — dossier recreated on domain mismatch -/

/-- Claim C8: in `buildDossier`, a stored identifier that parses successfully but
whose recorded network domain is non-empty and differs from the configured domain
makes the builder create a new dossier under the configured domain instead of
loading the existing one. -/
theorem C8_domain_mismatch_recreates (parse : String → Except String KeySSI)
    (cfgDomain stored : String) (k : KeySSI)
    (hp : parse stored = .ok k) (hnz : k.dlDomain ≠ "") (hdiff : k.dlDomain ≠ cfgDomain) :
    builderDecision parse cfgDomain stored = .createNew cfgDomain := by
  unfold builderDecision
  simp only [hp]
  have hc : (k.dlDomain != "" && k.dlDomain != cfgDomain) = true := by
    simp [hnz, hdiff]
  rw [hc]
  simp

/-- Witness for C8: a stored key that parses to a keySSI recorded under
"other-domain" while the configured domain is "cfg-domain". -/
theorem C8_domain_mismatch_recreates_witness :
    builderDecision parseC8 "cfg-domain" "stored-key" = .createNew "cfg-domain" :=
  C8_domain_mismatch_recreates parseC8 "cfg-domain" "stored-key"
    { dlDomain := "other-domain", anchorId := "stored-key", identifier := "stored-key" }
    rfl (by decide) (by decide)

/-! ## Claim C9 — total write failure surfaces the first listed rejection -/

/-- Claim C9: when every endpoint of the write fan-out rejects, the reason
surfaced to the caller is the wrapped rejection of the first endpoint in the
Service Locator's list order; the embedded call is a pure function of the
environment, so two runs with the same endpoint list and per-endpoint outcomes
surface the same reason. -/
theorem C9_first_listed_rejection_wins (env : WriteEnv) (k new : KeySSI)
    (last : Option KeySSI) (z d : Option String) (first : String) (rest : List String)
    (e : PutErr)
    (hnb : (k.dlDomain == DOMAINS_VAULT && env.cacheVaultType.isSome) = false)
    (hloc : env.getAnchoringServices = .ok (first :: rest))
    (hall : ∀ s ∈ first :: rest, ∃ err,
      env.doPut (addUrl s k) (serializeBody (builtBody new last z d)) = .error err)
    (hfirst : env.doPut (addUrl first k) (serializeBody (builtBody new last z d)) = .error e) :
    addVersion env k new last z d =
      .network (builtRequests (first :: rest) k new last z d)
        (some (.error (.rejection (wrapRejection e)))) := by
  have hne : first :: rest ≠ [] := by simp
  have hallset : ∀ x ∈ putSettlements env (builtRequests (first :: rest) k new last z d),
      ∃ r, x = .rejected r := by
    apply putSettlements_all_rejected
    intro req hreq
    obtain ⟨s, hs, heq⟩ := List.mem_map.mp hreq
    obtain ⟨err, herr⟩ := hall s hs
    exact ⟨err, by rw [← heq]; exact herr⟩
  have hnone : findFirstFulfilled
      (putSettlements env (builtRequests (first :: rest) k new last z d)) = none :=
    findFirstFulfilled_eq_none _ hallset
  have hfr : findFirstRejected
      (putSettlements env (builtRequests (first :: rest) k new last z d)) =
      some (wrapRejection e) := by
    unfold builtRequests putSettlements
    simp only [List.map_cons, hfirst]
    rfl
  rw [addVersion_network_path env k new last z d (first :: rest) hnb hloc hne]
  simp only [hnone, hfr]

/-- Witness for C9: two endpoints rejecting with distinct reasons; the first
listed endpoint's reason (status 500, message "first down") is surfaced. -/
theorem C9_first_listed_rejection_wins_witness :
    addVersion envC9 kCex newCex none none none =
      .network (builtRequests ["http://e1", "http://e2"] kCex newCex none none none)
        (some (.error (.rejection { statusCode := some 500, message := "first down" }))) := by
  have h := C9_first_listed_rejection_wins envC9 kCex newCex none none none
    "http://e1" ["http://e2"] { statusCode := some 500, message := some "first down" }
    rfl rfl
    (by
      intro s hs
      rcases List.mem_cons.mp hs with h1 | h2
      · subst h1
        exact ⟨{ statusCode := some 500, message := some "first down" }, rfl⟩
      · rw [List.mem_singleton] at h2
        subst h2
        exact ⟨{ statusCode := some 503, message := some "second down" }, rfl⟩)
    rfl
  exact h

/-! ## Claim C10 — decode failures silence the read callback entirely -/

/-- Claim C10: on the read network path, when some response fulfills but the
selected winner's body fails JSON decoding, or some decoded string fails
identifier parsing, the callback is never invoked at all — there is neither a
Version Chain nor an error (the inner promise chain is not returned to the outer
handler, so its rejection is unhandled). -/
theorem C10_decode_failure_no_callback (env : ReadEnv) (k : KeySSI)
    (services : List String) (resp : ReadResponse)
    (hnb : (k.dlDomain == DOMAINS_VAULT && env.cacheVaultType.isSome) = false)
    (hloc : env.getAnchoringServices = .ok services) (hne : services ≠ [])
    (hwin : findFirstFulfilled ((services.map (fun s => readUrl s k)).map env.fetch) = some resp)
    (hbad : (∃ e, resp.json = .rejected e) ∨
      (∃ hlStrings e, resp.json = .fulfilled hlStrings ∧
        mapKeySSIParse env.parse hlStrings = .error e)) :
    versions env k = .network (services.map (fun s => readUrl s k)) none := by
  rw [versions_network_path env k services hnb hloc hne]
  rcases hbad with ⟨e, hj⟩ | ⟨hl, e, hj, hp⟩
  · simp only [hwin, hj]
  · simp only [hwin, hj, hp]

/-- Witness for C10: one endpoint fulfilling with a body that fails JSON
decoding; the call ends with no callback invocation at all. -/
theorem C10_decode_failure_no_callback_witness :
    versions envC10 kCex = .network ["http://e1/anchor/versions/a1"] none := by
  have h := C10_decode_failure_no_callback envC10 kCex ["http://e1"]
    { json := .rejected "unexpected token" } rfl rfl (by decide) rfl
    (Or.inl ⟨"unexpected token", rfl⟩)
  exact h
